import Mathlib

set_option maxHeartbeats 1000000

/--
Verification development for the middleman message-forwarding layer of the
record/replay architecture.  A pair of MiddlemanProtocol endpoints relays
IPDL messages between the UI process and a recording (worker) process:
gChildProtocol (ipc::ChildSide) faces the UI process, gParentProtocol
(ipc::ParentSide) faces the recording process.  A shared monitor guards the
main-thread runnable queue and the per-endpoint synchronous-message slots.
The definitions below are a shallow embedding of the C++ source; monitor
protected regions are modelled as atomic steps, MOZ_RELEASE_ASSERT and
MOZ_CRASH failures as explicit Crash values.
-/
def middlemanForwardingLayer : String := "ParentIPC message forwarding"

/-- ipc::Side of a MiddlemanProtocol endpoint.  gChildProtocol (ChildSide)
faces the UI process; gParentProtocol (ParentSide) faces the recording
(worker) process. -/
inductive Side
  | ChildSide
  | ParentSide
deriving DecidableEq

/-- IPC::Message: a numeric message type, a routing id identifying the
target actor, and an opaque payload (modelled as bytes). -/
structure Message where
  msgType : Nat
  routingId : Int
  payload : List Nat
deriving DecidableEq

/-- The default-constructed message produced by new Message(); its fields
are only filled in when a channel Send/Call succeeds. -/
def emptyMessage : Message := ⟨0, 0, []⟩

/-- The release-assert / crash sites of the forwarding code.
assertOppositeLoop is MOZ_RELEASE_ASSERT(mOppositeMessageLoop) in
HandleSyncMessage; assertNoReply is MOZ_RELEASE_ASSERT(!mSyncMessageReply)
in MaybeSendSyncMessage; assertChildSide is
MOZ_RELEASE_ASSERT(mSide == ipc::ChildSide) (used in MaybeSendSyncMessage,
OnChannelClose and the no-opposite-loop branch of OnMessageReceived);
assertParentSide is MOZ_RELEASE_ASSERT(aProtocol->mSide == ipc::ParentSide)
in ForwardMessageAsync; nyiCrash is MOZ_CRASH("NYI") in HandleSyncMessage. -/
inductive Crash
  | assertOppositeLoop
  | assertNoReply
  | assertChildSide
  | assertParentSide
  | nyiCrash
deriving DecidableEq

/-- The per-endpoint state of a MiddlemanProtocol object: its fixed side,
whether mOppositeMessageLoop has been set, and the synchronous-call slots
mSyncMessage / mSyncMessageReply / mSyncMessageIsCall. -/
structure Endpoint where
  side : Side
  hasOppositeLoop : Bool
  syncMessage : Option Message
  syncMessageReply : Option Message
  syncMessageIsCall : Bool
deriving DecidableEq

/-- Observable effects of one step of an endpoint together with the state
it leaves behind.  postedTransmit records that the StaticMaybeSendSyncMessage
runnable was handed to PostOppositeRunnable; shutdownsPosted counts calls to
BeginShutdown; notifyAlls counts gMonitor->NotifyAll() calls; crash is the
release-assert or MOZ_CRASH that terminated the step, if any (effects
accumulated before the crash point are still reported). -/
structure SyncOut where
  endpoint : Endpoint
  postedTransmit : Bool
  shutdownsPosted : Nat
  notifyAlls : Nat
  crash : Option Crash
deriving DecidableEq

/-- First half of MiddlemanProtocol::HandleSyncMessage, up to entering the
reply wait loop: assert mOppositeMessageLoop, store a copy of the incoming
message into mSyncMessage (no check of the slot's previous contents),
record mSyncMessageIsCall, post the StaticMaybeSendSyncMessage runnable to
the opposite thread, then crash with MOZ_CRASH("NYI") on the ChildSide or
take the monitor and NotifyAll before waiting on the ParentSide. -/
def handleSyncStart (e : Endpoint) (msg : Message) (isCall : Bool) : SyncOut :=
  if e.hasOppositeLoop = false then
    ⟨e, false, 0, 0, some Crash.assertOppositeLoop⟩
  else
    let e1 : Endpoint :=
      { e with syncMessage := some msg, syncMessageIsCall := isCall }
    if e.side = Side.ChildSide then
      ⟨e1, true, 0, 0, some Crash.nyiCrash⟩
    else
      ⟨e1, true, 0, 1, none⟩

/-- MiddlemanProtocol::MaybeSendSyncMessage, run under the monitor.  The
channel of the opposite endpoint is modelled by the oracle transmit, which
returns the reply message the peer filled in on success and none when
Send/Call reports failure.  On failure the freshly allocated reply object
stays default-constructed but is still stored in mSyncMessageReply; the
tolerated-failure branch (BeginShutdown) requires mSide == ChildSide and
any other side fails the release assert before mSyncMessage is cleared or
waiters are notified. -/
def maybeSendSyncMessage (transmit : Message → Bool → Option Message)
    (e : Endpoint) : SyncOut :=
  match e.syncMessage with
  | none => ⟨e, false, 0, 0, none⟩
  | some m =>
    if e.syncMessageReply.isSome then
      ⟨e, false, 0, 0, some Crash.assertNoReply⟩
    else
      match transmit m e.syncMessageIsCall with
      | some rep =>
        ⟨{ e with syncMessageReply := some rep, syncMessage := none },
          false, 0, 1, none⟩
      | none =>
        if e.side = Side.ChildSide then
          ⟨{ e with syncMessageReply := some emptyMessage, syncMessage := none },
            false, 1, 1, none⟩
        else
          ⟨{ e with syncMessageReply := some emptyMessage },
            false, 0, 0, some Crash.assertChildSide⟩

/-- Second half of MiddlemanProtocol::HandleSyncMessage, after the wait
loop (while (!mSyncMessageReply) gMonitor->Wait()) has been released: take
the deposited reply out of mSyncMessageReply and clear the slot.  Returns
none while no reply has been deposited (the thread is still blocked). -/
def handleSyncFinish (e : Endpoint) : Option (Endpoint × Message) :=
  match e.syncMessageReply with
  | none => none
  | some r => some ({ e with syncMessageReply := none }, r)

/-- MiddlemanProtocol::OnChannelClose: release-assert mSide == ChildSide,
then BeginShutdown. -/
def OnChannelClose (e : Endpoint) : SyncOut :=
  if e.side = Side.ChildSide then
    ⟨e, false, 1, 0, none⟩
  else
    ⟨e, false, 0, 0, some Crash.assertChildSide⟩

/-- MiddlemanProtocol::OnChannelError: BeginShutdown unconditionally. -/
def OnChannelError (e : Endpoint) : SyncOut :=
  ⟨e, false, 1, 0, none⟩

/-- Tasks posted to the main thread message loop
(MainThreadMessageLoop()->PostTask). -/
inductive MainTask
  | shutdownTask
  | processRunnablesTask
deriving DecidableEq

/-- BeginShutdown: posts the Shutdown runnable to the main thread message
loop.  There is no flag guarding the post; every call appends one task. -/
def BeginShutdown (tasks : List MainTask) : List MainTask :=
  tasks ++ [MainTask.shutdownTask]

/-- A channel-error trigger acting on the main-thread task queue: the
OnChannelError callback calls BeginShutdown unconditionally. -/
def OnChannelErrorTasks (tasks : List MainTask) : List MainTask :=
  BeginShutdown tasks

/-- Number of Shutdown runnables currently posted to the main thread
message loop. -/
def countShutdownTasks (tasks : List MainTask) : Nat :=
  tasks.count MainTask.shutdownTask

/-- The state protected by gMonitor that drives main-thread runnable
processing: gMainThreadRunnables (runnables are modelled by opaque Nat
tags), gPostedProcessMainThreadRunnables, and the number of
ProcessMainThreadRunnables wake-up tasks posted to the main thread message
loop and not yet run. -/
structure RQState where
  runnables : List Nat
  posted : Bool
  pendingWakeups : Nat
deriving DecidableEq

/-- DispatchToMainThread: under the monitor, append the runnable to
gMainThreadRunnables; if gPostedProcessMainThreadRunnables is not set, post
one ProcessMainThreadRunnables task to the main thread loop and set the
flag. -/
def DispatchToMainThread (s : RQState) (r : Nat) : RQState :=
  if s.posted then
    { s with runnables := s.runnables ++ [r] }
  else
    { runnables := s.runnables ++ [r], posted := true,
      pendingWakeups := s.pendingWakeups + 1 }

/-- ProcessMainThreadRunnables running as the posted wake-up task: under
the monitor, run every queued runnable in order (returned as the first
component), clear gMainThreadRunnables and reset
gPostedProcessMainThreadRunnables; the wake-up task that ran is consumed. -/
def ProcessMainThreadRunnables (s : RQState) : List Nat × RQState :=
  (s.runnables,
    { runnables := [], posted := false, pendingWakeups := s.pendingWakeups - 1 })

/-- A burst of DispatchToMainThread calls in order. -/
def dispatchAll (s : RQState) (rs : List Nat) : RQState :=
  rs.foldl DispatchToMainThread s

/-- Numeric message-type constants the classifier compares against.  The
concrete values are assigned by the IPDL compiler; the classifier only uses
equality with the listed ids and membership in the protocol ranges. -/
structure MsgConsts where
  ConstructBrowser : Nat
  RegisterBrowsingContextGroup : Nat
  RegisterChrome : Nat
  SetXPCOMProcessAttributes : Nat
  UpdateSharedData : Nat
  SetProcessSandbox : Nat
  InitRenderingBrowser : Nat
  SetDocShellIsActive : Nat
  RenderLayers : Nat
  UpdateDimensions : Nat
  LoadURL : Nat
  ShowBrowser : Nat
  LoadRemoteScript : Nat
  AsyncMessage : Nat
  DestroyBrowser : Nat
  InitRenderingContent : Nat
  ShutdownContent : Nat
  PBrowserStart : Nat
  PBrowserEnd : Nat
  PCompositorBridgeStart : Nat
  PCompositorBridgeEnd : Nat
  PWindowGlobalStart : Nat
  PWindowGlobalEnd : Nat
deriving DecidableEq

/-- External collaborators consulted by HandleMessageInMiddleman: the ids
of the live managed PBrowserChild actors of the content child
(ManagedPBrowserChild), the routing ids the content child's Lookup
resolves, and MessageChannel::MessageOriginatesFromMiddleman. -/
structure Env where
  browserIds : List Int
  actorIds : List Int
  originatesFromMiddleman : Message → Bool

/-- Local delivery targets of HandleMessageInMiddleman. -/
inductive LocalTarget
  | contentChild
  | compositor
deriving DecidableEq

/-- The dual-delivery allow-list of HandleMessageInMiddleman: message types
sent to both the middleman and the child process. -/
def dualDeliveryType (c : MsgConsts) (t : Nat) : Bool :=
  t == c.ConstructBrowser || t == c.RegisterBrowsingContextGroup ||
  t == c.RegisterChrome || t == c.SetXPCOMProcessAttributes ||
  t == c.UpdateSharedData || t == c.SetProcessSandbox ||
  t == c.InitRenderingBrowser || t == c.SetDocShellIsActive ||
  t == c.RenderLayers || t == c.UpdateDimensions ||
  t == c.LoadURL || t == c.ShowBrowser ||
  t == c.LoadRemoteScript || t == c.AsyncMessage ||
  t == c.DestroyBrowser

/-- HandleMessageInMiddleman: decides whether an incoming message is
handled in the middleman (first component true means the caller does not
forward it) and which local collaborators it is delivered to (second
component).  Mirrors the branch order of the source: ParentSide messages
are never intercepted; dual-delivery types are delivered to the content
child (for PBrowser-ranged types only when a managed browser actor with
the routing id exists) and always left for forwarding; middleman-only
content types are delivered locally and consumed; compositor-ranged types
go to the compositor and are consumed; PWindowGlobal-ranged types are
delivered and consumed exactly when Lookup finds the routing id; replies
originating from the middleman are consumed without delivery; everything
else is forwarded. -/
def HandleMessageInMiddleman (c : MsgConsts) (env : Env) (side : Side)
    (msg : Message) : Bool × List LocalTarget :=
  let t := msg.msgType
  if side = Side.ParentSide then
    (false, [])
  else if dualDeliveryType c t then
    if c.PBrowserStart ≤ t ∧ t ≤ c.PBrowserEnd then
      if env.browserIds.contains msg.routingId then
        (false, [LocalTarget.contentChild])
      else
        (false, [])
    else
      (false, [LocalTarget.contentChild])
  else if t == c.InitRenderingContent || t == c.ShutdownContent then
    (true, [LocalTarget.contentChild])
  else if c.PCompositorBridgeStart ≤ t ∧ t ≤ c.PCompositorBridgeEnd then
    (true, [LocalTarget.compositor])
  else if c.PWindowGlobalStart ≤ t ∧ t ≤ c.PWindowGlobalEnd then
    if env.actorIds.contains msg.routingId then
      (true, [LocalTarget.contentChild])
    else
      (false, [])
  else if env.originatesFromMiddleman msg then
    (true, [])
  else
    (false, [])

/-- The ipc::IProtocol::Result values returned to the transport layer. -/
inductive MsgResult
  | MsgProcessed
  | MsgNotProcessed
deriving DecidableEq

/-- Outcome of one of the OnMessageReceived / OnCallReceived handlers:
the value returned to the transport (none when a crash prevented any
return), the crash if one occurred, whether a ForwardMessageAsync runnable
was posted to the opposite thread, and the local deliveries performed. -/
structure RecvOut where
  result : Option MsgResult
  crash : Option Crash
  forwardPosted : Bool
  localTargets : List LocalTarget
deriving DecidableEq

/-- The asynchronous MiddlemanProtocol::OnMessageReceived(aMessage).  When
mOppositeMessageLoop is unset it release-asserts mSide == ChildSide, tries
local handling only, and returns MsgProcessed.  Otherwise it copies the
message, and either consumes it (classifier handled it) or posts the copy
to the opposite thread for ForwardMessageAsync; in every case the value
returned to the transport is MsgProcessed, independent of whether the
later asynchronous forward will succeed. -/
def OnMessageReceivedAsync (c : MsgConsts) (env : Env) (e : Endpoint)
    (msg : Message) : RecvOut :=
  if e.hasOppositeLoop = false then
    if e.side = Side.ChildSide then
      ⟨some MsgResult.MsgProcessed, none, false,
        (HandleMessageInMiddleman c env e.side msg).2⟩
    else
      ⟨none, some Crash.assertChildSide, false, []⟩
  else
    if (HandleMessageInMiddleman c env e.side msg).1 then
      ⟨some MsgResult.MsgProcessed, none, false,
        (HandleMessageInMiddleman c env e.side msg).2⟩
    else
      ⟨some MsgResult.MsgProcessed, none, true,
        (HandleMessageInMiddleman c env e.side msg).2⟩

/-- One complete run of HandleSyncMessage for an endpoint whose transmit
step is eventually executed on the opposite thread: start, transmit, then
take the reply.  Returns the transport result (some MsgProcessed when the
handler returns) together with the crash that ended the run, if any; the
(none, none) outcome models a run still blocked in the wait loop. -/
def runSyncHandler (transmit : Message → Bool → Option Message)
    (e : Endpoint) (msg : Message) (isCall : Bool) :
    Option MsgResult × Option Crash :=
  match (handleSyncStart e msg isCall).crash with
  | some cr => (none, some cr)
  | none =>
    match (maybeSendSyncMessage transmit
        (handleSyncStart e msg isCall).endpoint).crash with
    | some cr => (none, some cr)
    | none =>
      match handleSyncFinish (maybeSendSyncMessage transmit
          (handleSyncStart e msg isCall).endpoint).endpoint with
      | some _ => (some MsgResult.MsgProcessed, none)
      | none => (none, none)

/-- MiddlemanProtocol::OnMessageReceived(aMessage, aReply): delegates to
HandleSyncMessage with aCall = false and returns MsgProcessed. -/
def OnMessageReceivedSync (transmit : Message → Bool → Option Message)
    (e : Endpoint) (msg : Message) : Option MsgResult × Option Crash :=
  runSyncHandler transmit e msg false

/-- MiddlemanProtocol::OnCallReceived(aMessage, aReply): delegates to
HandleSyncMessage with aCall = true and returns MsgProcessed. -/
def OnCallReceived (transmit : Message → Bool → Option Message)
    (e : Endpoint) (msg : Message) : Option MsgResult × Option Crash :=
  runSyncHandler transmit e msg true

/-- Where the thread that received a synchronous message for this endpoint
currently stands: idle (no exchange in progress) or blocked in
HandleSyncMessage's wait loop. -/
inductive SyncPhase
  | idle
  | waiting
deriving DecidableEq

/-- An endpoint together with the phase of its receiving thread. -/
structure ExchangeState where
  endpoint : Endpoint
  phase : SyncPhase
deriving DecidableEq

/-- The steps of a synchronous exchange.  The receiving thread is
sequential: it can only begin HandleSyncMessage while idle, and it resumes
(taking the reply) only from the wait loop once a reply is deposited.  The
opposite thread may run MaybeSendSyncMessage at any time (it is invoked
both by the posted runnable and by MaybeHandleForwardedMessages).  Steps
that crash terminate the execution and are not part of the relation. -/
inductive SyncStep (transmit : Message → Bool → Option Message) :
    ExchangeState → ExchangeState → Prop
  | start (s : ExchangeState) (msg : Message) (isCall : Bool)
      (hphase : s.phase = SyncPhase.idle)
      (hok : (handleSyncStart s.endpoint msg isCall).crash = none) :
      SyncStep transmit s
        ⟨(handleSyncStart s.endpoint msg isCall).endpoint, SyncPhase.waiting⟩
  | transmitStep (s : ExchangeState)
      (hok : (maybeSendSyncMessage transmit s.endpoint).crash = none) :
      SyncStep transmit s
        ⟨(maybeSendSyncMessage transmit s.endpoint).endpoint, s.phase⟩
  | finish (s : ExchangeState) (e2 : Endpoint) (r : Message)
      (hphase : s.phase = SyncPhase.waiting)
      (hfin : handleSyncFinish s.endpoint = some (e2, r)) :
      SyncStep transmit s ⟨e2, SyncPhase.idle⟩

/-- States reachable by a synchronous exchange from an idle endpoint with
both synchronous slots empty. -/
inductive SyncReachable (transmit : Message → Bool → Option Message) :
    ExchangeState → Prop
  | init (e : Endpoint)
      (hm : e.syncMessage = none) (hr : e.syncMessageReply = none) :
      SyncReachable transmit ⟨e, SyncPhase.idle⟩
  | step (s s2 : ExchangeState) (hs : SyncReachable transmit s)
      (hstep : SyncStep transmit s s2) : SyncReachable transmit s2

/-- The synchronous-slot invariant together with the bookkeeping needed to
push it through the step relation: the two slots are never simultaneously
occupied, and while the receiving thread is idle both slots are empty. -/
def SyncInv (s : ExchangeState) : Prop :=
  (s.endpoint.syncMessage.isSome = true →
    s.endpoint.syncMessageReply = none)
  ∧ (s.phase = SyncPhase.idle → s.endpoint.syncMessage = none)
  ∧ (s.phase = SyncPhase.idle → s.endpoint.syncMessageReply = none)

/-- Concrete peer stub whose channel always succeeds and replies with a
fixed message. -/
def stubTransmit : Message → Bool → Option Message :=
  fun _ _ => some ⟨7, 3, [1]⟩

/-- Concrete peer stub whose channel always fails. -/
def failTransmit : Message → Bool → Option Message :=
  fun _ _ => none

/-- The worker-facing endpoint (gParentProtocol) in its initial state. -/
def parentIdleEndpoint : Endpoint :=
  ⟨Side.ParentSide, true, none, none, false⟩

/-- The UI-facing endpoint (gChildProtocol) once its opposite message loop
has been attached. -/
def childIdleEndpoint : Endpoint :=
  ⟨Side.ChildSide, true, none, none, false⟩

lemma maybeSend_doubleReply_crash (transmit : Message → Bool → Option Message)
    (e : Endpoint) (hm : e.syncMessage.isSome = true)
    (hr : e.syncMessageReply.isSome = true) :
    (maybeSendSyncMessage transmit e).crash = some Crash.assertNoReply := by
  cases hmm : e.syncMessage with
  | none => rw [hmm] at hm; simp at hm
  | some m => simp [maybeSendSyncMessage, hmm, hr]

lemma syncInv_step {transmit : Message → Bool → Option Message}
    {s s2 : ExchangeState} (hinv : SyncInv s)
    (hstep : SyncStep transmit s s2) : SyncInv s2 := by
  obtain ⟨h1, h2, h3⟩ := hinv
  cases hstep with
  | start msg isCall hphase hok =>
    have hr : s.endpoint.syncMessageReply = none := h3 hphase
    by_cases hl : s.endpoint.hasOppositeLoop = false
    · simp [handleSyncStart, hl] at hok
    · by_cases hside : s.endpoint.side = Side.ChildSide
      · simp [handleSyncStart, hl, hside] at hok
      · simp [SyncInv, handleSyncStart, hl, hside, hr]
  | transmitStep hok =>
    cases hm : s.endpoint.syncMessage with
    | none =>
      have he : (maybeSendSyncMessage transmit s.endpoint).endpoint = s.endpoint := by
        simp [maybeSendSyncMessage, hm]
      rw [he]
      exact ⟨h1, h2, h3⟩
    | some m =>
      cases hr : s.endpoint.syncMessageReply with
      | some r => simp [maybeSendSyncMessage, hm, hr] at hok
      | none =>
        have hnotidle : s.phase ≠ SyncPhase.idle := by
          intro hp
          rw [h2 hp] at hm
          simp at hm
        cases ht : transmit m s.endpoint.syncMessageIsCall with
        | some rep =>
          refine ⟨?_, ?_, ?_⟩ <;>
            simp [SyncInv, maybeSendSyncMessage, hm, hr, ht, hnotidle]
        | none =>
          by_cases hside : s.endpoint.side = Side.ChildSide
          · refine ⟨?_, ?_, ?_⟩ <;>
              simp [SyncInv, maybeSendSyncMessage, hm, hr, ht, hside, hnotidle]
          · simp [maybeSendSyncMessage, hm, hr, ht, hside] at hok
  | finish e2 r hphase hfin =>
    cases hr : s.endpoint.syncMessageReply with
    | none => simp [handleSyncFinish, hr] at hfin
    | some r2 =>
      have hm : s.endpoint.syncMessage = none := by
        cases hmm : s.endpoint.syncMessage with
        | none => rfl
        | some m =>
          have := h1 (by rw [hmm]; rfl)
          rw [this] at hr
          exact absurd hr (by simp)
      simp [handleSyncFinish, hr] at hfin
      refine ⟨?_, ?_, ?_⟩ <;> simp [← hfin.1, hm]

lemma syncInv_reachable {transmit : Message → Bool → Option Message}
    {s : ExchangeState} (h : SyncReachable transmit s) : SyncInv s := by
  induction h with
  | init e hm hr => exact ⟨fun _ => hr, fun _ => hm, fun _ => hr⟩
  | step s s2 hs hstep ih => exact syncInv_step ih hstep

/-- Claim C1: for every endpoint and at every point of execution of a
synchronous exchange (steps of HandleSyncMessage and MaybeSendSyncMessage),
at most one of the slots mSyncMessage (pendingSyncMessage) and
mSyncMessageReply (pendingSyncReply) is non-null, and any attempt to set
mSyncMessageReply while it is already set fails the release assertion
MOZ_RELEASE_ASSERT(!mSyncMessageReply), a fatal invariant violation. -/
theorem c1_sync_slots_invariant (transmit : Message → Bool → Option Message)
    (s : ExchangeState) (hreach : SyncReachable transmit s) :
    ¬(s.endpoint.syncMessage.isSome = true
        ∧ s.endpoint.syncMessageReply.isSome = true)
    ∧ ∀ e : Endpoint, e.syncMessage.isSome = true →
        e.syncMessageReply.isSome = true →
        (maybeSendSyncMessage transmit e).crash = some Crash.assertNoReply := by
  refine ⟨?_, fun e hm hr => maybeSend_doubleReply_crash transmit e hm hr⟩
  obtain ⟨h1, _, _⟩ := syncInv_reachable hreach
  rintro ⟨hm, hr⟩
  rw [h1 hm] at hr
  simp at hr

/-- Concrete instantiation of c1_sync_slots_invariant at the initial state
of the worker-facing endpoint. -/
theorem c1_sync_slots_invariant_witness :
    ¬((⟨parentIdleEndpoint, SyncPhase.idle⟩ : ExchangeState).endpoint.syncMessage.isSome = true
        ∧ (⟨parentIdleEndpoint, SyncPhase.idle⟩ : ExchangeState).endpoint.syncMessageReply.isSome = true)
    ∧ ∀ e : Endpoint, e.syncMessage.isSome = true →
        e.syncMessageReply.isSome = true →
        (maybeSendSyncMessage stubTransmit e).crash = some Crash.assertNoReply :=
  c1_sync_slots_invariant stubTransmit ⟨parentIdleEndpoint, SyncPhase.idle⟩
    (SyncReachable.init parentIdleEndpoint rfl rfl)

/-- A concrete pending synchronous message. -/
def msgA : Message := ⟨5, 10, []⟩

/-- A second concrete synchronous message, distinct from msgA. -/
def msgB : Message := ⟨6, 11, [2]⟩

/-- The worker-facing endpoint with a synchronous exchange outstanding:
mSyncMessage holds msgA and no reply has been deposited yet. -/
def busyParentEndpoint : Endpoint :=
  ⟨Side.ParentSide, true, some msgA, none, false⟩

/-- The UI-facing endpoint with a synchronous message queued for transmit. -/
def busyChildEndpoint : Endpoint :=
  ⟨Side.ChildSide, true, some msgA, none, false⟩

/-- Claim C2 counterexample: starting a second synchronous send while the
endpoint's mSyncMessage slot is still set does not fail fast; HandleSyncMessage
performs no check on the slot and silently overwrites the first pending
message with the second. -/
theorem c2_counterexample :
    (handleSyncStart busyParentEndpoint msgB false).crash = none
    ∧ (handleSyncStart busyParentEndpoint msgB false).endpoint.syncMessage = some msgB
    ∧ busyParentEndpoint.syncMessage = some msgA
    ∧ msgB ≠ msgA := by decide

/-- Claim C2 (amended): starting a second synchronous send while
mSyncMessage is set is not detected: HandleSyncMessage proceeds without any
fatal contract check and silently overwrites the pending message; the only
fatal check in the synchronous path guards the reply slot, where
MaybeSendSyncMessage release-asserts that mSyncMessageReply is empty. -/
theorem c2_second_sync_send_overwrites (e : Endpoint) (m : Message)
    (isCall : Bool) (hloop : e.hasOppositeLoop = true)
    (hside : e.side = Side.ParentSide)
    (_hpending : e.syncMessage.isSome = true) :
    (handleSyncStart e m isCall).crash = none
    ∧ (handleSyncStart e m isCall).endpoint.syncMessage = some m
    ∧ ∀ (transmit : Message → Bool → Option Message) (e2 : Endpoint),
        e2.syncMessage.isSome = true → e2.syncMessageReply.isSome = true →
        (maybeSendSyncMessage transmit e2).crash = some Crash.assertNoReply := by
  refine ⟨?_, ?_, fun t e2 hm2 hr2 => maybeSend_doubleReply_crash t e2 hm2 hr2⟩ <;>
    simp [handleSyncStart, hloop, hside]

/-- Concrete instantiation of c2_second_sync_send_overwrites on the busy
worker-facing endpoint. -/
theorem c2_second_sync_send_overwrites_witness :
    (handleSyncStart busyParentEndpoint msgB false).crash = none
    ∧ (handleSyncStart busyParentEndpoint msgB false).endpoint.syncMessage = some msgB
    ∧ ∀ (transmit : Message → Bool → Option Message) (e2 : Endpoint),
        e2.syncMessage.isSome = true → e2.syncMessageReply.isSome = true →
        (maybeSendSyncMessage transmit e2).crash = some Crash.assertNoReply :=
  c2_second_sync_send_overwrites busyParentEndpoint msgB false rfl rfl rfl

/-- Claim C3 counterexample: two channel-error triggers post two Shutdown
tasks to the main thread message loop, not one; posting is not idempotent. -/
theorem c3_counterexample :
    countShutdownTasks (OnChannelErrorTasks (OnChannelErrorTasks [])) = 2
    ∧ ¬countShutdownTasks (OnChannelErrorTasks (OnChannelErrorTasks [])) = 1 := by
  decide

/-- Claim C3 (amended): BeginShutdown posts one Shutdown task on every
call with no guarding flag, so each trigger event (channel close, channel
error, send failure) that reaches it adds exactly one task: a second
trigger arriving while a shutdown task is already posted posts a second
task rather than being a no-op. -/
theorem c3_each_trigger_posts_one_task (tasks : List MainTask) :
    countShutdownTasks (BeginShutdown tasks) = countShutdownTasks tasks + 1
    ∧ countShutdownTasks (OnChannelErrorTasks tasks)
        = countShutdownTasks tasks + 1
    ∧ (OnChannelError parentIdleEndpoint).shutdownsPosted = 1
    ∧ (OnChannelError childIdleEndpoint).shutdownsPosted = 1 := by
  refine ⟨?_, ?_, rfl, rfl⟩ <;>
    simp [countShutdownTasks, OnChannelErrorTasks, BeginShutdown]

/-- Claim C5: when the synchronous transmit succeeds, MaybeSendSyncMessage
deposits the peer's reply into mSyncMessageReply, clears mSyncMessage and
notifies all waiters; the blocked HandleSyncMessage then returns exactly
the deposited reply and mSyncMessageReply is cleared back to empty. -/
theorem c5_sync_reply_roundtrip (transmit : Message → Bool → Option Message)
    (e : Endpoint) (m rep : Message)
    (hm : e.syncMessage = some m) (hr : e.syncMessageReply = none)
    (ht : transmit m e.syncMessageIsCall = some rep) :
    (maybeSendSyncMessage transmit e).endpoint.syncMessageReply = some rep
    ∧ (maybeSendSyncMessage transmit e).endpoint.syncMessage = none
    ∧ (maybeSendSyncMessage transmit e).notifyAlls = 1
    ∧ (maybeSendSyncMessage transmit e).crash = none
    ∧ (handleSyncFinish (maybeSendSyncMessage transmit e).endpoint).map Prod.snd
        = some rep
    ∧ (handleSyncFinish (maybeSendSyncMessage transmit e).endpoint).map
        (fun p => p.1.syncMessageReply) = some none := by
  refine ⟨?_, ?_, ?_, ?_, ?_, ?_⟩ <;>
    simp [maybeSendSyncMessage, handleSyncFinish, hm, hr, ht]

/-- Concrete instantiation of c5_sync_reply_roundtrip: the busy
worker-facing endpoint with a peer stub that replies with message
(7, 3, [1]). -/
theorem c5_sync_reply_roundtrip_witness :
    (maybeSendSyncMessage stubTransmit busyParentEndpoint).endpoint.syncMessageReply
        = some ⟨7, 3, [1]⟩
    ∧ (maybeSendSyncMessage stubTransmit busyParentEndpoint).endpoint.syncMessage = none
    ∧ (maybeSendSyncMessage stubTransmit busyParentEndpoint).notifyAlls = 1
    ∧ (maybeSendSyncMessage stubTransmit busyParentEndpoint).crash = none
    ∧ (handleSyncFinish (maybeSendSyncMessage stubTransmit busyParentEndpoint).endpoint).map
        Prod.snd = some ⟨7, 3, [1]⟩
    ∧ (handleSyncFinish (maybeSendSyncMessage stubTransmit busyParentEndpoint).endpoint).map
        (fun p => p.1.syncMessageReply) = some none :=
  c5_sync_reply_roundtrip stubTransmit busyParentEndpoint msgA ⟨7, 3, [1]⟩ rfl rfl rfl

/-- Claim C7 counterexample: a channel-close event detected on the
worker-facing (parent-side) endpoint fails the release assertion
MOZ_RELEASE_ASSERT(mSide == ipc::ChildSide) and posts no shutdown task:
the process crashes instead of initiating orderly teardown. -/
theorem c7_counterexample :
    (OnChannelClose parentIdleEndpoint).crash = some Crash.assertChildSide
    ∧ (OnChannelClose parentIdleEndpoint).shutdownsPosted = 0 := by decide

/-- Claim C7 (amended): a channel-close event detected on the UI-facing
(child-side) endpoint posts a shutdown task (orderly teardown); a
channel-close event on the worker-facing (parent-side) endpoint instead
fails the release assertion and posts nothing. -/
theorem c7_channel_close_sides (e : Endpoint) :
    (e.side = Side.ChildSide →
      (OnChannelClose e).shutdownsPosted = 1 ∧ (OnChannelClose e).crash = none)
    ∧ (e.side = Side.ParentSide →
      (OnChannelClose e).crash = some Crash.assertChildSide
        ∧ (OnChannelClose e).shutdownsPosted = 0) := by
  constructor <;> intro hside <;> simp [OnChannelClose, hside]

/-- Concrete instantiation of c7_channel_close_sides on both endpoints. -/
theorem c7_channel_close_sides_witness :
    ((OnChannelClose childIdleEndpoint).shutdownsPosted = 1
      ∧ (OnChannelClose childIdleEndpoint).crash = none)
    ∧ ((OnChannelClose parentIdleEndpoint).crash = some Crash.assertChildSide
      ∧ (OnChannelClose parentIdleEndpoint).shutdownsPosted = 0) :=
  ⟨(c7_channel_close_sides childIdleEndpoint).1 rfl,
    (c7_channel_close_sides parentIdleEndpoint).2 rfl⟩

/-- Claim C8 counterexample: when the synchronous transmit fails on the
worker-facing (parent-side) endpoint — the only endpoint whose
HandleSyncMessage actually blocks waiting for a reply — MaybeSendSyncMessage
fails the release assertion MOZ_RELEASE_ASSERT(mSide == ipc::ChildSide):
no shutdown task is posted and no waiter is notified, so the process
crashes instead of entering the shutdown path and waking the waiter. -/
theorem c8_counterexample :
    (maybeSendSyncMessage failTransmit busyParentEndpoint).crash
        = some Crash.assertChildSide
    ∧ (maybeSendSyncMessage failTransmit busyParentEndpoint).shutdownsPosted = 0
    ∧ (maybeSendSyncMessage failTransmit busyParentEndpoint).notifyAlls = 0 := by
  decide

/-- Claim C8 (amended): a failing synchronous transmit is tolerated only on
the UI-facing (child-side) endpoint, whose transmit goes to the worker
process: there it posts a shutdown task, stores the still-empty reply
object into mSyncMessageReply, clears mSyncMessage and notifies all
waiters.  On the worker-facing (parent-side) endpoint a failing transmit
fails the release assertion before any shutdown or notification happens. -/
theorem c8_sync_transmit_failure_paths
    (transmit : Message → Bool → Option Message) (e : Endpoint) (m : Message)
    (hm : e.syncMessage = some m) (hr : e.syncMessageReply = none)
    (ht : transmit m e.syncMessageIsCall = none) :
    (e.side = Side.ChildSide →
      (maybeSendSyncMessage transmit e).shutdownsPosted = 1
      ∧ (maybeSendSyncMessage transmit e).endpoint.syncMessageReply = some emptyMessage
      ∧ (maybeSendSyncMessage transmit e).endpoint.syncMessage = none
      ∧ (maybeSendSyncMessage transmit e).notifyAlls = 1
      ∧ (maybeSendSyncMessage transmit e).crash = none)
    ∧ (e.side = Side.ParentSide →
      (maybeSendSyncMessage transmit e).crash = some Crash.assertChildSide
      ∧ (maybeSendSyncMessage transmit e).shutdownsPosted = 0
      ∧ (maybeSendSyncMessage transmit e).notifyAlls = 0) := by
  constructor <;> intro hside <;> simp [maybeSendSyncMessage, hm, hr, ht, hside]

/-- Concrete instantiation of c8_sync_transmit_failure_paths on the busy
UI-facing endpoint with an always-failing channel. -/
theorem c8_sync_transmit_failure_paths_witness :
    (busyChildEndpoint.side = Side.ChildSide →
      (maybeSendSyncMessage failTransmit busyChildEndpoint).shutdownsPosted = 1
      ∧ (maybeSendSyncMessage failTransmit busyChildEndpoint).endpoint.syncMessageReply
          = some emptyMessage
      ∧ (maybeSendSyncMessage failTransmit busyChildEndpoint).endpoint.syncMessage = none
      ∧ (maybeSendSyncMessage failTransmit busyChildEndpoint).notifyAlls = 1
      ∧ (maybeSendSyncMessage failTransmit busyChildEndpoint).crash = none)
    ∧ (busyChildEndpoint.side = Side.ParentSide →
      (maybeSendSyncMessage failTransmit busyChildEndpoint).crash
          = some Crash.assertChildSide
      ∧ (maybeSendSyncMessage failTransmit busyChildEndpoint).shutdownsPosted = 0
      ∧ (maybeSendSyncMessage failTransmit busyChildEndpoint).notifyAlls = 0) :=
  c8_sync_transmit_failure_paths failTransmit busyChildEndpoint msgA rfl rfl rfl

/-- Claim C10: synchronous (blocking) messages arriving on the UI-facing
(child-side) endpoint are not supported: HandleSyncMessage posts the
transmit runnable and then reaches MOZ_CRASH("NYI") unconditionally, so
only the worker-facing (parent-side) endpoint proceeds into the blocking
wait of a synchronous exchange. -/
theorem c10_child_side_sync_nyi (e : Endpoint) (msg : Message) (isCall : Bool)
    (hloop : e.hasOppositeLoop = true) (hside : e.side = Side.ChildSide) :
    (handleSyncStart e msg isCall).crash = some Crash.nyiCrash
    ∧ (handleSyncStart e msg isCall).postedTransmit = true
    ∧ ∀ e2 : Endpoint, e2.hasOppositeLoop = true → e2.side = Side.ParentSide →
        (handleSyncStart e2 msg isCall).crash = none := by
  refine ⟨?_, ?_, fun e2 hl2 hs2 => ?_⟩
  · simp [handleSyncStart, hloop, hside]
  · simp [handleSyncStart, hloop, hside]
  · simp [handleSyncStart, hl2, hs2]

/-- Concrete instantiation of c10_child_side_sync_nyi: a call-type message
received synchronously on the UI-facing endpoint. -/
theorem c10_child_side_sync_nyi_witness :
    (handleSyncStart childIdleEndpoint msgA true).crash = some Crash.nyiCrash
    ∧ (handleSyncStart childIdleEndpoint msgA true).postedTransmit = true
    ∧ ∀ e2 : Endpoint, e2.hasOppositeLoop = true → e2.side = Side.ParentSide →
        (handleSyncStart e2 msgA true).crash = none :=
  c10_child_side_sync_nyi childIdleEndpoint msgA true rfl rfl

lemma dispatchAll_spec (rs : List Nat) (s : RQState) :
    dispatchAll s rs =
      ⟨s.runnables ++ rs, s.posted || !rs.isEmpty,
        s.pendingWakeups + (if s.posted || rs.isEmpty then 0 else 1)⟩ := by
  induction rs generalizing s with
  | nil => simp [dispatchAll]
  | cons r rest ih =>
    have hstep : dispatchAll s (r :: rest)
        = dispatchAll (DispatchToMainThread s r) rest := rfl
    rw [hstep, ih]
    by_cases hp : s.posted
    · simp [DispatchToMainThread, hp]
    · simp [DispatchToMainThread, hp]

/-- Claim C6: enqueuing N actions through DispatchToMainThread before a
drain runs posts exactly one ProcessMainThreadRunnables wake-up to the
main thread (none when N = 0), the drain runs all N actions in enqueue
order and then clears the queue and resets the flag, and throughout the
burst gPostedProcessMainThreadRunnables is true exactly when one wake-up
has been posted and not yet drained. -/
theorem c6_runnable_queue_coalescing (rs : List Nat) :
    (dispatchAll ⟨[], false, 0⟩ rs).runnables = rs
    ∧ (dispatchAll ⟨[], false, 0⟩ rs).pendingWakeups
        = (if rs.isEmpty then 0 else 1)
    ∧ (dispatchAll ⟨[], false, 0⟩ rs).posted = !rs.isEmpty
    ∧ ProcessMainThreadRunnables (dispatchAll ⟨[], false, 0⟩ rs)
        = (rs, ⟨[], false, 0⟩)
    ∧ ∀ n : Nat, ((dispatchAll ⟨[], false, 0⟩ (rs.take n)).posted = true
        ↔ (dispatchAll ⟨[], false, 0⟩ (rs.take n)).pendingWakeups = 1) := by
  refine ⟨?_, ?_, ?_, ?_, ?_⟩
  · rw [dispatchAll_spec]; simp
  · rw [dispatchAll_spec]; by_cases hemp : rs.isEmpty <;> simp [hemp]
  · rw [dispatchAll_spec]; simp
  · rw [dispatchAll_spec]
    by_cases hemp : rs.isEmpty <;>
      simp [ProcessMainThreadRunnables, hemp]
  · intro n
    rw [dispatchAll_spec]
    by_cases hemp : (rs.take n).isEmpty <;> simp [hemp]

/-- Claim C4: for a message in the dual-delivery allow-list whose type lies
in the PBrowser range, received on the UI-facing endpoint with the
forwarding loop attached, the classifier delivers it to the local content
child exactly when a live managed browser actor with the matching routing
id exists; when no such actor exists nothing is delivered locally, and in
either case the message is still posted for forwarding to the opposite
endpoint. -/
theorem c4_dual_delivery_actor_check (c : MsgConsts) (env : Env)
    (e : Endpoint) (msg : Message)
    (hside : e.side = Side.ChildSide) (hloop : e.hasOppositeLoop = true)
    (hdual : dualDeliveryType c msg.msgType = true)
    (hlo : c.PBrowserStart ≤ msg.msgType) (hhi : msg.msgType ≤ c.PBrowserEnd) :
    ((OnMessageReceivedAsync c env e msg).localTargets
        = [LocalTarget.contentChild]
      ↔ env.browserIds.contains msg.routingId = true)
    ∧ (env.browserIds.contains msg.routingId = false →
        (OnMessageReceivedAsync c env e msg).localTargets = [])
    ∧ (OnMessageReceivedAsync c env e msg).forwardPosted = true
    ∧ (OnMessageReceivedAsync c env e msg).result = some MsgResult.MsgProcessed := by
  by_cases hb : msg.routingId ∈ env.browserIds
  · refine ⟨?_, ?_, ?_, ?_⟩ <;>
      simp [OnMessageReceivedAsync, HandleMessageInMiddleman, hside, hloop,
        hdual, hlo, hhi, hb]
  · refine ⟨?_, ?_, ?_, ?_⟩ <;>
      simp [OnMessageReceivedAsync, HandleMessageInMiddleman, hside, hloop,
        hdual, hlo, hhi, hb]

/-- Concrete message-type constants for witnesses: PContent ids 100-111,
the PBrowser range 200-299, the PCompositorBridge range 300-399 and the
PWindowGlobal range 400-499. -/
def testConsts : MsgConsts :=
  ⟨100, 101, 102, 103, 104, 105, 200, 201, 202, 203, 204, 205, 206, 207,
    208, 110, 111, 200, 299, 300, 399, 400, 499⟩

/-- Concrete collaborator state for witnesses: one managed browser actor
with routing id 10, one Lookup-able actor with routing id 20, and no
middleman-originated replies. -/
def testEnv : Env := ⟨[10], [20], fun _ => false⟩

/-- The InitRendering browser message addressed to the live browser actor. -/
def browserMsg : Message := ⟨200, 10, []⟩

/-- Concrete instantiation of c4_dual_delivery_actor_check: an
InitRendering message in the PBrowser range addressed to routing id 10,
for which a live managed browser actor exists. -/
theorem c4_dual_delivery_actor_check_witness :
    ((OnMessageReceivedAsync testConsts testEnv childIdleEndpoint browserMsg).localTargets
        = [LocalTarget.contentChild]
      ↔ testEnv.browserIds.contains browserMsg.routingId = true)
    ∧ (testEnv.browserIds.contains browserMsg.routingId = false →
        (OnMessageReceivedAsync testConsts testEnv childIdleEndpoint browserMsg).localTargets = [])
    ∧ (OnMessageReceivedAsync testConsts testEnv childIdleEndpoint browserMsg).forwardPosted = true
    ∧ (OnMessageReceivedAsync testConsts testEnv childIdleEndpoint browserMsg).result
        = some MsgResult.MsgProcessed :=
  c4_dual_delivery_actor_check testConsts testEnv childIdleEndpoint browserMsg
    rfl rfl (by decide) (by decide) (by decide)

lemma runSyncHandler_result (transmit : Message → Bool → Option Message)
    (e : Endpoint) (msg : Message) (isCall : Bool) (r : MsgResult)
    (h : (runSyncHandler transmit e msg isCall).1 = some r) :
    r = MsgResult.MsgProcessed := by
  unfold runSyncHandler at h
  cases h1 : (handleSyncStart e msg isCall).crash with
  | some cr => rw [h1] at h; simp at h
  | none =>
    rw [h1] at h
    cases h2 : (maybeSendSyncMessage transmit
        (handleSyncStart e msg isCall).endpoint).crash with
    | some cr => rw [h2] at h; simp at h
    | none =>
      rw [h2] at h
      cases h3 : handleSyncFinish (maybeSendSyncMessage transmit
          (handleSyncStart e msg isCall).endpoint).endpoint with
      | none => rw [h3] at h; simp at h
      | some p =>
        rw [h3] at h
        simp at h
        exact h.symm

/-- Claim C9: every receive handler reports the message as processed to
the transport layer whenever it returns: the asynchronous
OnMessageReceived, the synchronous OnMessageReceived-with-reply and
OnCallReceived all return MsgProcessed regardless of how the message was
classified and regardless of whether the (asynchronous or deferred)
forwarding transmission later fails; transport failures are never
surfaced through these return values. -/
theorem c9_handlers_return_processed (c : MsgConsts) (env : Env)
    (e : Endpoint) (msg : Message)
    (transmit : Message → Bool → Option Message) (r1 r2 r3 : MsgResult) :
    ((OnMessageReceivedAsync c env e msg).result = some r1 →
        r1 = MsgResult.MsgProcessed)
    ∧ ((OnMessageReceivedSync transmit e msg).1 = some r2 →
        r2 = MsgResult.MsgProcessed)
    ∧ ((OnCallReceived transmit e msg).1 = some r3 →
        r3 = MsgResult.MsgProcessed) := by
  refine ⟨?_, ?_, ?_⟩
  · intro h
    unfold OnMessageReceivedAsync at h
    by_cases hl : e.hasOppositeLoop = false
    · rw [if_pos hl] at h
      by_cases hs : e.side = Side.ChildSide
      · rw [if_pos hs] at h
        simp at h
        exact h.symm
      · rw [if_neg hs] at h
        simp at h
    · rw [if_neg hl] at h
      by_cases hh : (HandleMessageInMiddleman c env e.side msg).1 = true
      · rw [if_pos hh] at h
        simp at h
        exact h.symm
      · rw [if_neg hh] at h
        simp at h
        exact h.symm
  · exact runSyncHandler_result transmit e msg false r2
  · exact runSyncHandler_result transmit e msg true r3

/-- Concrete instantiation of c9_handlers_return_processed: an async
message on the UI-facing endpoint and a successful synchronous exchange on
the worker-facing endpoint, all three returning MsgProcessed. -/
theorem c9_handlers_return_processed_witness :
    MsgResult.MsgProcessed = MsgResult.MsgProcessed
    ∧ MsgResult.MsgProcessed = MsgResult.MsgProcessed
    ∧ MsgResult.MsgProcessed = MsgResult.MsgProcessed :=
  ⟨(c9_handlers_return_processed testConsts testEnv childIdleEndpoint msgA
      stubTransmit MsgResult.MsgProcessed MsgResult.MsgProcessed
      MsgResult.MsgProcessed).1 (by decide),
    (c9_handlers_return_processed testConsts testEnv parentIdleEndpoint msgA
      stubTransmit MsgResult.MsgProcessed MsgResult.MsgProcessed
      MsgResult.MsgProcessed).2.1 (by decide),
    (c9_handlers_return_processed testConsts testEnv parentIdleEndpoint msgA
      stubTransmit MsgResult.MsgProcessed MsgResult.MsgProcessed
      MsgResult.MsgProcessed).2.2 (by decide)⟩
